import Mathlib

/-!
Shallow embedding of the acquisition and normalization pipeline of the
bundestag repository (notebooks 00_html_parsing and 03_abgeordnetenwatch_data),
together with theorems settling the specification claims about it.

Conventions of the embedding:
* pandas data frames become lists of records, one structure per frame schema;
* Python strings become lists of characters where character level operations
  (split, join) matter, and Lean strings elsewhere;
* Python dicts become association lists with Python insertion semantics
  (an existing key keeps its position and gets the new value, a new key is
  appended; lookup finds the first matching key);
* the filesystem directory of downloaded sheets becomes an association list
  from filename to file content, and the network becomes a function from uri
  to content;
* fallible code (assert statements, KeyError) returns Except values;
* the external pandas to_datetime parser is passed in as a function argument,
  exactly as the source itself passes parsing functions into is_date; concrete
  model instances for the date formats appearing in the data are provided.
-/

/-- Calendar date, the result of a successful date parse. -/
structure Date where
  year : Nat
  month : Nat
  day : Nat
deriving DecidableEq

/-- Python str.split with a one character separator: splits at every
occurrence, keeping empty parts, and never returns an empty list. -/
def pySplit (sep : Char) : List Char → List (List Char)
  | [] => [[]]
  | c :: rest =>
    if c = sep then [] :: pySplit sep rest
    else
      match pySplit sep rest with
      | [] => [[c]]
      | g :: gs => (c :: g) :: gs

/-- Python sep.join for a one character separator. -/
def pyJoin (sep : Char) : List (List Char) → List Char
  | [] => []
  | [g] => g
  | g :: gs => g ++ sep :: pyJoin sep gs

/-- Numeric value of a decimal digit character. -/
def charDigit (c : Char) : Option Nat :=
  if '0' ≤ c ∧ c ≤ '9' then some (c.toNat - '0'.toNat) else none

/-- Parse of a nonempty all-digit character list as a natural number. -/
def parseNatChars (s : List Char) : Option Nat :=
  if s.isEmpty then none
  else s.foldl (fun acc c => acc.bind fun n => (charDigit c).map fun d => n * 10 + d) (some 0)

/-- Model of pandas to_datetime with dayfirst set, restricted to the
day.month.year numeric format used by the sheet titles. -/
def parse_date_dayfirst (s : List Char) : Option Date :=
  match pySplit '.' s with
  | [d, m, y] =>
    match parseNatChars d, parseNatChars m, parseNatChars y with
    | some dd, some mm, some yy =>
      if 1 ≤ dd ∧ dd ≤ 31 ∧ 1 ≤ mm ∧ mm ≤ 12 then some ⟨yy, mm, dd⟩ else none
    | _, _, _ => none
  | _ => none

/-- Model of the default pandas to_datetime, restricted to the
year-month-day numeric format used by the sheet filename date part. -/
def parse_date_default (s : List Char) : Option Date :=
  match pySplit '-' s with
  | [y, m, d] =>
    match parseNatChars y, parseNatChars m, parseNatChars d with
    | some yy, some mm, some dd =>
      if 1 ≤ dd ∧ dd ≤ 31 ∧ 1 ≤ mm ∧ mm ≤ 12 then some ⟨yy, mm, dd⟩ else none
    | _, _, _ => none
  | _ => none

/-- Embedding of is_date: the try and except wrapper around a date parsing
function collapses to whether the parser succeeds. -/
def is_date (s : List Char) (f : List Char → Option Date) : Bool :=
  (f s).isSome

/-- Embedding of handle_title_and_date, parameterized over the two pandas
date parsers used by the source (to_datetime with dayfirst and plain
to_datetime). Splits the full title on colons; when the part before the
first colon parses as a day first date, that date is returned together with
the rejoined remainder of the title; otherwise, when the filename part
before the first underscore parses as a date, that date is returned with the
full title; otherwise no date is returned with the full title. -/
def handle_title_and_date (pdf pdd : List Char → Option Date)
    (full_title sheet_file_name : List Char) : List Char × Option Date :=
  let title := pySplit ':' full_title
  let date := title.headD []
  if is_date date pdf then
    (pyJoin ':' title.tail, pdf date)
  else if is_date ((pySplit '_' sheet_file_name).headD []) pdd then
    (full_title, pdd ((pySplit '_' sheet_file_name).headD []))
  else
    (full_title, none)

/-- Embedding of PARTY_MAP, the default canonicalization dict of
disambiguate_party. -/
def PARTY_MAP : List (String × String) :=
  [("BÜNDNIS`90/DIE GRÜNEN", "BÜ90/GR"),
   ("DIE LINKE", "DIE LINKE."),
   ("fraktionslos", "Fraktionslos"),
   ("fraktionslose", "Fraktionslos")]

/-- Embedding of the per value lambda inside disambiguate_party: the value
itself when it is not a key of the party map, else its image. -/
def party_map_lookup (party_map : List (String × String)) (x : String) : String :=
  match List.lookup x party_map with
  | some y => y
  | none => x

/-- Embedding of disambiguate_party on the party label column of a frame,
given as the list of its values. -/
def disambiguate_party_col (party_map : List (String × String)) (xs : List String) : List String :=
  xs.map (party_map_lookup party_map)

/-- One row of a vote spreadsheet as read by read_excel: the raw columns of
the Bundestag sheet files. -/
structure RawRow where
  Wahlperiode : Nat
  Sitzungnr : Nat
  Abstimmnr : Nat
  Fraktion : String
  Name : String
  Vorname : String
  Titel : String
  ja : Nat
  nein : Nat
  Enthaltung : Nat
  «ungültig» : Nat
  nichtabgegeben : Nat
  Bezeichnung : String
deriving DecidableEq

/-- Downloaded spreadsheet file: filename, byte size, and pages as read by
read_excel with sheet_name None (sheet name and rows per page). -/
structure SheetFile where
  name : String
  size : Nat
  pages : List (String × List RawRow)
deriving DecidableEq

/-- VOTE_COLS, the five one hot outcome columns, in source order. -/
def VOTE_COLS : List String := ["ja", "nein", "Enthaltung", "ungültig", "nichtabgegeben"]

/-- Values of the five outcome columns of a raw row, in VOTE_COLS order. -/
def rawFlags (r : RawRow) : List Nat :=
  [r.ja, r.nein, r.Enthaltung, r.«ungültig», r.nichtabgegeben]

/-- Row sum over the five outcome columns of a raw row. -/
def rawFlagSum (r : RawRow) : Nat := (rawFlags r).sum

/-- One row of the wide frame returned by get_sheet_df: the raw columns plus
sheet_name, date and title, with the party column already canonicalized. -/
structure WideRow where
  Wahlperiode : Nat
  Sitzungnr : Nat
  Abstimmnr : Nat
  Fraktion : String
  Name : String
  Vorname : String
  Titel : String
  ja : Nat
  nein : Nat
  Enthaltung : Nat
  «ungültig» : Nat
  nichtabgegeben : Nat
  Bezeichnung : String
  sheet_name : String
  date : Option Date
  title : Option String
deriving DecidableEq

/-- Name and value pairs of the five outcome columns of a wide row, in
VOTE_COLS order. -/
def wideFlagPairs (r : WideRow) : List (String × Nat) :=
  [("ja", r.ja), ("nein", r.nein), ("Enthaltung", r.Enthaltung),
   ("ungültig", r.«ungültig»), ("nichtabgegeben", r.nichtabgegeben)]

/-- Row sum over the five outcome columns of a wide row. -/
def wideFlagSum (r : WideRow) : Nat := ((wideFlagPairs r).map (·.2)).sum

/-- Completion of a raw row inside get_sheet_df: the sheet_name, date and
title columns are added and the party column is passed through
disambiguate_party with the default party map. -/
def finishRow (sheet_name : String) (date : Option Date) (title : Option String)
    (r : RawRow) : WideRow :=
  { Wahlperiode := r.Wahlperiode
    Sitzungnr := r.Sitzungnr
    Abstimmnr := r.Abstimmnr
    Fraktion := party_map_lookup PARTY_MAP r.Fraktion
    Name := r.Name
    Vorname := r.Vorname
    Titel := r.Titel
    ja := r.ja
    nein := r.nein
    Enthaltung := r.Enthaltung
    «ungültig» := r.«ungültig»
    nichtabgegeben := r.nichtabgegeben
    Bezeichnung := r.Bezeichnung
    sheet_name := sheet_name
    date := date
    title := title }

/-- Failure modes of get_sheet_df: a failing assert statement, a missing
key in file_title_maps, or a reference to an unbound Python name. -/
inductive ParseError where
  | assertionError (msg : String)
  | keyError (key : String)
  | nameError (name : String)
deriving DecidableEq

/-- Embedding of get_sheet_df. The zero size branch is meant to warn and
return, but its loguru.warning call references the name loguru, which the
notebook never imports, so a zero size file raises a NameError; a file with
more than one page fails the page count assert; a row whose outcome flag
sum is zero or above one fails the flag asserts; a filename absent from a
given file_title_maps raises a KeyError; otherwise the rows are completed
with sheet_name, date and title and the party column is canonicalized. The
two pandas date parsers used by handle_title_and_date are passed in. -/
def get_sheet_df (pdf pdd : List Char → Option Date) (sheet_file : SheetFile)
    (file_title_maps : Option (List (String × String))) :
    Except ParseError (Option (List WideRow)) :=
  if sheet_file.size = 0 then
    Except.error (ParseError.nameError "loguru")
  else
    match sheet_file.pages with
    | [(sheet_name, rows)] =>
      if rows.any (fun r => rawFlagSum r == 0) then
        Except.error (ParseError.assertionError "a row has no outcome flag set")
      else if rows.any (fun r => decide (1 < rawFlagSum r)) then
        Except.error (ParseError.assertionError "a row has more than one outcome flag set")
      else
        match file_title_maps with
        | none => Except.ok (some (rows.map (finishRow sheet_name none none)))
        | some m =>
          match List.lookup sheet_file.name m with
          | none => Except.error (ParseError.keyError sheet_file.name)
          | some full_title =>
            let td := handle_title_and_date pdf pdd full_title.data sheet_file.name.data
            Except.ok (some (rows.map (finishRow sheet_name td.2 (some td.1.asString))))
    | _ => Except.error (ParseError.assertionError "the sheet file has more than one page")

/-- Zero padded decimal rendering of a natural number. -/
def padNum (w n : Nat) : String :=
  String.mk (List.replicate (w - (toString n).length) '0') ++ toString n

/-- ISO rendering of a date, as str applied to a python datetime date
produces it. -/
def dateIso (d : Date) : String :=
  padNum 4 d.year ++ "-" ++ padNum 2 d.month ++ "-" ++ padNum 2 d.day

/-- Embedding of the issue column construction inside get_squished_dataframe:
str of the date part of the date column (NaT when the date is missing), a
space, and the title; a missing title propagates to a missing issue. -/
def mkIssue (date : Option Date) (title : Option String) : Option String :=
  title.map (fun t =>
    (match date with | some d => dateIso d | none => "NaT") ++ " " ++ t)

/-- One stacked row of the tmp frame inside get_squished_dataframe after the
filter for value one: the index levels plus the name of the surviving
outcome column in the vote field. -/
structure MeltEntry where
  Bezeichnung : String
  issue : Option String
  date : Option Date
  title : Option String
  vote : String
deriving DecidableEq

/-- Stack and filter step of get_squished_dataframe for one row: every
outcome cell equal to one survives as one stacked entry carrying the name of
its column. -/
def meltRow (r : WideRow) : List MeltEntry :=
  (wideFlagPairs r).filterMap (fun cv =>
    if cv.2 = 1 then
      some ⟨r.Bezeichnung, mkIssue r.date r.title, r.date, r.title, cv.1⟩
    else none)

/-- Stack and filter step of get_squished_dataframe over the whole frame,
rows first and columns within a row, as pandas stack orders them. -/
def stackFilter (df : List WideRow) : List MeltEntry := df.flatMap meltRow

/-- One row of the frame returned by get_squished_dataframe: the wide
columns without the five outcome columns, plus the joined issue and vote
columns, which are missing when the join found no partner. -/
structure SquishedRow where
  Wahlperiode : Nat
  Sitzungnr : Nat
  Abstimmnr : Nat
  Fraktion : String
  Name : String
  Vorname : String
  Titel : String
  Bezeichnung : String
  sheet_name : String
  date : Option Date
  title : Option String
  issue : Option String
  vote : Option String
deriving DecidableEq

/-- Projection of a wide row to a squished row, dropping the five outcome
columns and attaching the joined issue and vote values. -/
def dropVoteCols (r : WideRow) (issue : Option String) (vote : Option String) : SquishedRow :=
  { Wahlperiode := r.Wahlperiode
    Sitzungnr := r.Sitzungnr
    Abstimmnr := r.Abstimmnr
    Fraktion := r.Fraktion
    Name := r.Name
    Vorname := r.Vorname
    Titel := r.Titel
    Bezeichnung := r.Bezeichnung
    sheet_name := r.sheet_name
    date := r.date
    title := r.title
    issue := issue
    vote := vote }

/-- Embedding of get_squished_dataframe: build the stacked tmp frame from
the wide frame, then left join tmp back onto the wide frame on Bezeichnung,
date and title (a row with no partner keeps missing issue and vote, a row
with several partners is repeated once per partner, as a pandas join does)
and drop the five outcome columns. -/
def get_squished_dataframe (df : List WideRow) : List SquishedRow :=
  let tmp := stackFilter df
  df.flatMap (fun r =>
    let ms := tmp.filter (fun m =>
      decide (m.Bezeichnung = r.Bezeichnung ∧ m.date = r.date ∧ m.title = r.title))
    if ms.isEmpty then [dropVoteCols r none none]
    else ms.map (fun m => dropVoteCols r m.issue (some m.vote)))

/-- Reconstruction of the one hot outcome columns of a squished row from its
categorical vote column, as in the round trip property: the flag named by
the vote label is one, the other flags are zero. -/
def unsquishRow (s : SquishedRow) : WideRow :=
  { Wahlperiode := s.Wahlperiode
    Sitzungnr := s.Sitzungnr
    Abstimmnr := s.Abstimmnr
    Fraktion := s.Fraktion
    Name := s.Name
    Vorname := s.Vorname
    Titel := s.Titel
    ja := if s.vote = some "ja" then 1 else 0
    nein := if s.vote = some "nein" then 1 else 0
    Enthaltung := if s.vote = some "Enthaltung" then 1 else 0
    «ungültig» := if s.vote = some "ungültig" then 1 else 0
    nichtabgegeben := if s.vote = some "nichtabgegeben" then 1 else 0
    Bezeichnung := s.Bezeichnung
    sheet_name := s.sheet_name
    date := s.date
    title := s.title }

/-- Reconstruction of a wide frame from a squished frame, row by row. -/
def unsquish (l : List SquishedRow) : List WideRow := l.map unsquishRow

/-- Join key of a wide row, the columns the join inside
get_squished_dataframe matches on. -/
def wideKey (r : WideRow) : String × Option Date × Option String :=
  (r.Bezeichnung, r.date, r.title)

/-- Name of the unique outcome column of value one of a wide row (first such
column when several exist, junk when none does). -/
def voteChar (r : WideRow) : String :=
  ((((wideFlagPairs r).find? (fun cv => cv.2 == 1)).map (·.1)).getD "")

/-- Stacked entry a wide row with exactly one outcome flag contributes. -/
def mkMelt (r : WideRow) : MeltEntry :=
  ⟨r.Bezeichnung, mkIssue r.date r.title, r.date, r.title, voteChar r⟩

/-- Final path segment of a uri, Python uri.split on slash, last element. -/
def finalSegment (uri : String) : String :=
  ((pySplit '/' uri.data).getLastD []).asString

/-- Python dict insertion on an association list: an existing key keeps its
position and receives the new value, a new key is appended. -/
def dictInsert (d : List (String × String)) (k v : String) : List (String × String) :=
  if (List.lookup k d).isSome then
    d.map (fun p => if p.1 = k then (k, v) else p)
  else
    d ++ [(k, v)]

/-- Embedding of download_sheet: fetch the uri over the network and write
its content under the final path segment of the uri, overwriting any
existing file of that name. The network is a function from uri to content
and the sheet directory an association list from filename to content. -/
def download_sheet (net : String → String) (uri : String)
    (sheet_path : List (String × String)) : List (String × String) :=
  dictInsert sheet_path (finalSegment uri) (net uri)

/-- Embedding of the dict comprehension building file_title_maps inside
download_multiple_sheets: the final path segment of each uri mapped to its
title, later pairs overwriting earlier ones. -/
def make_file_title_maps (uris : List (String × String)) : List (String × String) :=
  uris.foldl (fun d tu => dictInsert d (finalSegment tu.2) tu.1) []

/-- Break condition of the download loop: nmax is given and the running
index i exceeds it. -/
def nmaxExceeded (nmax : Option Nat) (i : Nat) : Bool :=
  match nmax with
  | some n => decide (n < i)
  | none => false

/-- Loop of download_multiple_sheets over the enumerated title and uri
pairs: break once the running index exceeds nmax, skip a uri whose target
file already exists, and otherwise download it. Returns the uris fetched
over the network, in order, together with the final directory. -/
def downloadLoop (net : String → String) (nmax : Option Nat) :
    List (String × String) → Nat → List (String × String) →
    List String × List (String × String)
  | [], _, dir => ([], dir)
  | (_, uri) :: rest, i, dir =>
    if nmaxExceeded nmax i then
      ([], dir)
    else if (List.lookup (finalSegment uri) dir).isSome then
      downloadLoop net nmax rest (i + 1) dir
    else
      let dir' := download_sheet net uri dir
      let res := downloadLoop net nmax rest (i + 1) dir'
      (uri :: res.1, res.2)

/-- Embedding of download_multiple_sheets: build file_title_maps from the
input map alone, then run the enumerate loop from index zero on the given
directory. Returns the maps, the uris fetched over the network and the final
directory. -/
def download_multiple_sheets (net : String → String) (uris : List (String × String))
    (sheet_path : List (String × String)) (nmax : Option Nat) :
    List (String × String) × List String × List (String × String) :=
  (make_file_title_maps uris, downloadLoop net nmax uris 0 sheet_path)

/-- Modelled from the spec: the missing polls helper used by
get_all_remaining_vote_data lives in the bundestag.data.download
abgeordnetenwatch module, whose file is not among the sources (the notebook
only calls it). The spec describes it as a pure function computing "the set
difference between all known poll ids for this legislature and poll ids
already present on disk". -/
def missing_poll_ids (known_ids on_disk : Finset Nat) : Finset Nat :=
  known_ids \ on_disk

/-- Raw row with exactly the ja flag set, used by concrete checks. -/
def exRawRowJa : RawRow :=
  ⟨19, 1, 1, "DIE LINKE", "Mustermann", "Anna", "", 1, 0, 0, 0, 0, "Anna Mustermann"⟩

/-- Raw row with no outcome flag set, used by concrete checks. -/
def exRawRowNone : RawRow :=
  ⟨19, 1, 1, "SPD", "Beispiel", "Bernd", "", 0, 0, 0, 0, 0, "Bernd Beispiel"⟩

/-- Sheet file with one valid page of one row. -/
def exGoodSheet : SheetFile :=
  ⟨"20200910_2_xls-data.xlsx", 100, [("Sheet1", [exRawRowJa])]⟩

/-- Sheet file whose single page contains a row with outcome flag sum zero. -/
def exBadSheet : SheetFile :=
  ⟨"20200910_2_xls-data.xlsx", 100, [("Sheet1", [exRawRowNone])]⟩

/-- Zero size sheet file. -/
def exEmptySheet : SheetFile := ⟨"20200910_2_xls-data.xlsx", 0, []⟩

/-- Rows returned by get_sheet_df on the good sheet file without maps. -/
def exGoodRows : List WideRow := [finishRow "Sheet1" none none exRawRowJa]

/-- Wide row of member A voting ja. -/
def exWideA : WideRow :=
  ⟨19, 1, 1, "SPD", "A", "A", "", 1, 0, 0, 0, 0, "A", "Sheet1",
   some ⟨2020, 9, 10⟩, some " Example Vote"⟩

/-- Wide row of member B voting nein, with a join key different from A. -/
def exWideB : WideRow :=
  ⟨19, 1, 1, "SPD", "B", "B", "", 0, 1, 0, 0, 0, "B", "Sheet1",
   some ⟨2020, 9, 10⟩, some " Example Vote"⟩

/-- Wide row with the same join key as exWideA but the opposite vote. -/
def exWideADup : WideRow :=
  ⟨19, 1, 2, "SPD", "A", "A", "", 0, 1, 0, 0, 0, "A", "Sheet1",
   some ⟨2020, 9, 10⟩, some " Example Vote"⟩

/-- Wide table with two rows sharing the Bezeichnung, date and title key. -/
def dupKeyTable : List WideRow := [exWideA, exWideADup]

/-- Wide table with two rows with distinct join keys. -/
def okKeyTable : List WideRow := [exWideA, exWideB]

/-- C4: the missing polls computation used by get_all_remaining_vote_data is
the set difference between the known poll ids of the legislature and the
poll ids already on disk; it is empty when every known id is on disk, and
adding one new id not on disk yields exactly that singleton. -/
theorem missing_poll_ids_spec (known on_disk : Finset Nat) (i : Nat)
    (hsub : known ⊆ on_disk) (hi : i ∉ on_disk) :
    missing_poll_ids known on_disk = known \ on_disk ∧
    missing_poll_ids known on_disk = ∅ ∧
    missing_poll_ids (insert i known) on_disk = {i} := by
  refine ⟨rfl, ?_, ?_⟩
  · simpa [missing_poll_ids, Finset.sdiff_eq_empty_iff_subset] using hsub
  · rw [missing_poll_ids, Finset.insert_sdiff_of_not_mem _ hi,
      Finset.sdiff_eq_empty_iff_subset.mpr hsub]
    simp

/-- C4 witness: with known ids one and two on disk among one, two and three,
nothing is missing, and a fresh id seven is exactly the missing singleton. -/
theorem missing_poll_ids_spec_witness :
    missing_poll_ids {1, 2} {1, 2, 3} = {1, 2} \ {1, 2, 3} ∧
    missing_poll_ids {1, 2} {1, 2, 3} = ∅ ∧
    missing_poll_ids (insert 7 {1, 2}) {1, 2, 3} = {7} :=
  missing_poll_ids_spec {1, 2} {1, 2, 3} 7 (by decide) (by decide)

/-- C5: contrary to the claim, a zero byte sheet file is not skipped with a
logged warning and no exception: the zero size branch of the source calls
loguru.warning although the name loguru is never imported in the notebook,
so get_sheet_df raises a NameError on every zero byte file instead of
returning. Evaluating the embedding at the concrete zero size file exhibits
the error. -/
theorem get_sheet_df_zero_size_raises :
    exEmptySheet.size = 0 ∧
    get_sheet_df parse_date_dayfirst parse_date_default exEmptySheet none =
      Except.error (ParseError.nameError "loguru") :=
  ⟨rfl, rfl⟩

/-- C9: party canonicalization with the default party map is idempotent on
every label: no value in the image of the map is itself remapped. -/
theorem disambiguate_party_idempotent (x : String) :
    party_map_lookup PARTY_MAP (party_map_lookup PARTY_MAP x) =
      party_map_lookup PARTY_MAP x := by
  by_cases h1 : x = "BÜNDNIS`90/DIE GRÜNEN"
  · subst h1; decide
  · by_cases h2 : x = "DIE LINKE"
    · subst h2; decide
    · by_cases h3 : x = "fraktionslos"
      · subst h3; decide
      · by_cases h4 : x = "fraktionslose"
        · subst h4; decide
        · have hx : party_map_lookup PARTY_MAP x = x := by
            have e1 : (x == "BÜNDNIS`90/DIE GRÜNEN") = false := beq_eq_false_iff_ne.mpr h1
            have e2 : (x == "DIE LINKE") = false := beq_eq_false_iff_ne.mpr h2
            have e3 : (x == "fraktionslos") = false := beq_eq_false_iff_ne.mpr h3
            have e4 : (x == "fraktionslose") = false := beq_eq_false_iff_ne.mpr h4
            unfold party_map_lookup PARTY_MAP
            simp [List.lookup, e1, e2, e3, e4]
          rw [hx, hx]

/-- Flag sums are unchanged by the completion of a raw row to a wide row. -/
theorem finishRow_flagSum (sheet_name : String) (date : Option Date)
    (title : Option String) (r : RawRow) :
    wideFlagSum (finishRow sheet_name date title r) = rawFlagSum r := rfl

/-- Rows of a completed table inherit flag sum one from the raw table. -/
theorem flagSum_one_of_map (tbl : List RawRow)
    (hall : ∀ r ∈ tbl, rawFlagSum r = 1) (sname : String) (d : Option Date)
    (t : Option String) :
    ∀ r ∈ tbl.map (finishRow sname d t), wideFlagSum r = 1 := by
  intro r hr
  rcases List.mem_map.mp hr with ⟨r0, hr0, rfl⟩
  rw [finishRow_flagSum]
  exact hall r0 hr0

/-- C1: every table successfully parsed by get_sheet_df has outcome flag sum
exactly one in every row, and a nonempty file whose single page contains a
row with flag sum zero or above one makes get_sheet_df fail with an
assertion error instead of returning a table. -/
theorem get_sheet_df_flag_invariant (pdf pdd : List Char → Option Date)
    (sheet_file : SheetFile) (ftm : Option (List (String × String))) :
    (∀ rows, get_sheet_df pdf pdd sheet_file ftm = Except.ok (some rows) →
      ∀ r ∈ rows, wideFlagSum r = 1) ∧
    (sheet_file.size ≠ 0 →
      ∀ sheet_name table, sheet_file.pages = [(sheet_name, table)] →
      (∃ r ∈ table, rawFlagSum r ≠ 1) →
      ∃ msg, get_sheet_df pdf pdd sheet_file ftm =
        Except.error (ParseError.assertionError msg)) := by
  obtain ⟨nm, sz, pages⟩ := sheet_file
  by_cases hsz : sz = 0
  · constructor
    · intro rows h
      simp [get_sheet_df, hsz] at h
    · intro h
      exact absurd hsz h
  · constructor
    · intro rows h
      rcases pages with _ | ⟨⟨sname, tbl⟩, rest⟩
      · simp [get_sheet_df, hsz] at h
      rcases rest with _ | ⟨p2, rest2⟩
      · unfold get_sheet_df at h
        simp only [hsz, if_false] at h
        by_cases h0 : tbl.any (fun r => rawFlagSum r == 0)
        · simp [h0] at h
        by_cases h1 : tbl.any (fun r => decide (1 < rawFlagSum r))
        · simp [h0, h1] at h
        have hall : ∀ r ∈ tbl, rawFlagSum r = 1 := by
          intro r hr
          have c0 : ¬(rawFlagSum r == 0) = true := fun hc =>
            h0 (List.any_eq_true.mpr ⟨r, hr, hc⟩)
          have c1 : ¬(decide (1 < rawFlagSum r)) = true := fun hc =>
            h1 (List.any_eq_true.mpr ⟨r, hr, hc⟩)
          simp at c0 c1
          omega
        cases ftm with
        | none =>
          simp [h0, h1] at h
          rw [← h]
          exact flagSum_one_of_map tbl hall sname none none
        | some m =>
          cases hm : List.lookup nm m with
          | none => simp [h0, h1, hm] at h
          | some ft =>
            simp [h0, h1, hm] at h
            rw [← h]
            exact flagSum_one_of_map tbl hall sname _ _
      · simp [get_sheet_df, hsz] at h
    · intro hne sname tbl hpg hbad
      have hpg' : pages = [(sname, tbl)] := hpg
      subst hpg'
      rcases hbad with ⟨r, hr, hrs⟩
      by_cases h0 : tbl.any (fun r => rawFlagSum r == 0)
      · exact ⟨"a row has no outcome flag set", by simp [get_sheet_df, hsz, h0]⟩
      · have h1 : tbl.any (fun r => decide (1 < rawFlagSum r)) = true := by
          apply List.any_eq_true.mpr
          refine ⟨r, hr, ?_⟩
          have c0 : ¬(rawFlagSum r == 0) = true := fun hc =>
            h0 (List.any_eq_true.mpr ⟨r, hr, hc⟩)
          simp at c0 ⊢
          omega
        exact ⟨"a row has more than one outcome flag set",
          by simp [get_sheet_df, hsz, h0, h1]⟩

/-- C1 witness: the good one row sheet parses with flag sum one in its row,
and the sheet containing a row with no flag set fails with an assertion
error. -/
theorem get_sheet_df_flag_invariant_witness :
    (∀ r ∈ exGoodRows, wideFlagSum r = 1) ∧
    (∃ msg, get_sheet_df parse_date_dayfirst parse_date_default exBadSheet none =
      Except.error (ParseError.assertionError msg)) :=
  ⟨(get_sheet_df_flag_invariant parse_date_dayfirst parse_date_default exGoodSheet none).1
      exGoodRows rfl,
   (get_sheet_df_flag_invariant parse_date_dayfirst parse_date_default exBadSheet none).2
      (by decide) "Sheet1" [exRawRowNone] rfl ⟨exRawRowNone, by decide, by decide⟩⟩

/-- Python split never returns the empty list of parts. -/
theorem pySplit_ne_nil (sep : Char) (s : List Char) : pySplit sep s ≠ [] := by
  induction s with
  | nil => simp [pySplit]
  | cons c rest ih =>
    by_cases hc : c = sep
    · simp [pySplit, hc]
    · simp only [pySplit, if_neg hc]
      cases h : pySplit sep rest with
      | nil => simp
      | cons g gs => simp

/-- Head of a Python split: the longest separator free prefix. -/
theorem pySplit_headD (sep : Char) (s : List Char) :
    (pySplit sep s).headD [] = s.takeWhile (fun c => c != sep) := by
  induction s with
  | nil => rfl
  | cons c rest ih =>
    by_cases hc : c = sep
    · simp [pySplit, hc, List.takeWhile_cons]
    · simp only [pySplit, if_neg hc]
      cases h : pySplit sep rest with
      | nil => exact absurd h (pySplit_ne_nil sep rest)
      | cons g gs =>
        rw [h] at ih
        simp only [List.headD_cons] at ih ⊢
        simp [List.takeWhile_cons, hc, ih]

/-- Joining a Python split with its separator restores the input. -/
theorem pyJoin_pySplit (sep : Char) (s : List Char) :
    pyJoin sep (pySplit sep s) = s := by
  induction s with
  | nil => rfl
  | cons c rest ih =>
    by_cases hc : c = sep
    · subst hc
      simp only [pySplit, eq_self_iff_true, if_true]
      cases h : pySplit c rest with
      | nil => exact absurd h (pySplit_ne_nil c rest)
      | cons g gs =>
        rw [h] at ih
        simpa [pyJoin] using ih
    · simp only [pySplit, if_neg hc]
      cases h : pySplit sep rest with
      | nil => exact absurd h (pySplit_ne_nil sep rest)
      | cons g gs =>
        rw [h] at ih
        cases gs with
        | nil => simpa [pyJoin] using ih
        | cons g2 gs2 => simpa [pyJoin] using ih

/-- Joining the tail of a Python split yields the part after the first
separator, and the empty list when there is no separator. -/
theorem pyJoin_pySplit_tail (sep : Char) (s : List Char) :
    pyJoin sep (pySplit sep s).tail = (s.dropWhile (fun c => c != sep)).tail := by
  induction s with
  | nil => rfl
  | cons c rest ih =>
    by_cases hc : c = sep
    · subst hc
      simp only [pySplit, eq_self_iff_true, if_true, List.tail_cons]
      rw [pyJoin_pySplit]
      simp [List.dropWhile_cons]
    · simp only [pySplit, if_neg hc]
      cases h : pySplit sep rest with
      | nil => exact absurd h (pySplit_ne_nil sep rest)
      | cons g gs =>
        rw [h] at ih
        simp only [List.tail_cons] at ih ⊢
        rw [ih]
        simp [List.dropWhile_cons, hc]

/-- C6: handle_title_and_date applies the two tier heuristic in order: when
the part of the title before the first colon parses as a day first date,
that date is returned with the remainder of the title after the colon; when
it does not and the filename part before the first underscore parses as a
date, that date is returned with the full title verbatim; otherwise no date
and the full title are returned. On the title "10.09.2020: Example Vote" it
returns the date 2020-09-10 with the title " Example Vote". -/
theorem handle_title_and_date_heuristic (pdf pdd : List Char → Option Date)
    (full_title sheet_file_name : List Char) :
    (∀ d, pdf (full_title.takeWhile (fun c => c != ':')) = some d →
      handle_title_and_date pdf pdd full_title sheet_file_name =
        ((full_title.dropWhile (fun c => c != ':')).tail, some d)) ∧
    (pdf (full_title.takeWhile (fun c => c != ':')) = none →
      ∀ d, pdd (sheet_file_name.takeWhile (fun c => c != '_')) = some d →
      handle_title_and_date pdf pdd full_title sheet_file_name = (full_title, some d)) ∧
    (pdf (full_title.takeWhile (fun c => c != ':')) = none →
      pdd (sheet_file_name.takeWhile (fun c => c != '_')) = none →
      handle_title_and_date pdf pdd full_title sheet_file_name = (full_title, none)) ∧
    handle_title_and_date parse_date_dayfirst parse_date_default
      "10.09.2020: Example Vote".data "20200910_2_xls-data.xlsx".data =
      (" Example Vote".data, some ⟨2020, 9, 10⟩) := by
  refine ⟨?_, ?_, ?_, by decide⟩
  · intro d hd
    simp only [handle_title_and_date, is_date, pySplit_headD, hd, Option.isSome_some,
      if_true, pyJoin_pySplit_tail]
  · intro h1 d hd
    simp only [handle_title_and_date, is_date, pySplit_headD, h1, hd,
      Option.isSome_none, Option.isSome_some, Bool.false_eq_true, if_false, if_true]
  · intro h1 h2
    simp only [handle_title_and_date, is_date, pySplit_headD, h1, h2,
      Option.isSome_none, Bool.false_eq_true, if_false]

/-- C6 witness: the first tier fires on a concrete dated title, yielding the
date and the remainder of the title after the colon. -/
theorem handle_title_and_date_heuristic_witness :
    handle_title_and_date parse_date_dayfirst parse_date_default
      "10.09.2020: Beispiel".data "20200910_2_xls-data.xlsx".data =
      (" Beispiel".data, some ⟨2020, 9, 10⟩) :=
  ((handle_title_and_date_heuristic parse_date_dayfirst parse_date_default
      "10.09.2020: Beispiel".data "20200910_2_xls-data.xlsx".data).1
      ⟨2020, 9, 10⟩ (by decide)).trans (by decide)


/-- Lookup on a cons cell with propositional key comparison. -/
theorem lookup_cons_eq_ite (k b : String) (es : List (String × String)) (a : String) :
    List.lookup a ((k, b) :: es) = if a = k then some b else List.lookup a es := by
  rw [List.lookup_cons]
  by_cases h : a = k
  · simp [h]
  · simp [h, beq_eq_false_iff_ne.mpr h]

/-- Lookup after the in place update branch of a Python dict insertion. -/
theorem lookup_map_update (d : List (String × String)) (k v k' : String) :
    List.lookup k' (d.map (fun p => if p.1 = k then (k, v) else p)) =
      if k' = k then (List.lookup k d).map (fun _ => v) else List.lookup k' d := by
  induction d with
  | nil => by_cases h : k' = k <;> simp [h]
  | cons p t ih =>
    obtain ⟨a, b⟩ := p
    by_cases ha : a = k
    · by_cases h : k' = a <;> simp_all [lookup_cons_eq_ite, List.map_cons]
    · have hka : ¬k = a := fun hh => ha hh.symm
      by_cases h : k' = a <;> simp_all [lookup_cons_eq_ite, List.map_cons]

/-- Lookup after appending a fresh pair, when the key was absent before. -/
theorem lookup_append_single_of_none (d : List (String × String)) (k v k' : String)
    (hnone : List.lookup k' d = none) :
    List.lookup k' (d ++ [(k, v)]) = if k' = k then some v else none := by
  induction d with
  | nil => simp [lookup_cons_eq_ite]
  | cons p t ih =>
    obtain ⟨a, b⟩ := p
    rw [lookup_cons_eq_ite] at hnone
    by_cases h : k' = a
    · simp [h] at hnone
    · rw [List.cons_append, lookup_cons_eq_ite, if_neg h]
      exact ih (by simpa [h] using hnone)

/-- Lookup is stable under appending when the key is already found. -/
theorem lookup_append_of_some (d e : List (String × String)) (k' b : String)
    (h : List.lookup k' d = some b) :
    List.lookup k' (d ++ e) = some b := by
  induction d with
  | nil => simp at h
  | cons p t ih =>
    obtain ⟨a, c⟩ := p
    rw [lookup_cons_eq_ite] at h
    by_cases h' : k' = a
    · rw [if_pos h'] at h
      rw [List.cons_append, lookup_cons_eq_ite, if_pos h']
      exact h
    · rw [if_neg h'] at h
      rw [List.cons_append, lookup_cons_eq_ite, if_neg h']
      exact ih h

/-- Lookup after a Python dict insertion: the inserted key now maps to the
inserted value and every other key is untouched. -/
theorem lookup_dictInsert (d : List (String × String)) (k v k' : String) :
    List.lookup k' (dictInsert d k v) = if k' = k then some v else List.lookup k' d := by
  unfold dictInsert
  cases hk : List.lookup k d with
  | some b =>
    simp only [hk, Option.isSome_some, if_true]
    rw [lookup_map_update]
    by_cases h : k' = k
    · simp [h, hk]
    · simp [h]
  | none =>
    simp only [hk, Option.isSome_none, Bool.false_eq_true, if_false]
    by_cases h : k' = k
    · rw [lookup_append_single_of_none d k v k' (by rw [h]; exact hk)]
      simp [h]
    · cases hlk : List.lookup k' d with
      | some b => simp [lookup_append_of_some d [(k, v)] k' b hlk, h, hlk]
      | none => simp [lookup_append_single_of_none d k v k' hlk, h, hlk]

/-- Presence of a file survives a Python dict insertion. -/
theorem isSome_lookup_dictInsert (d : List (String × String)) (k v k' : String)
    (h : (List.lookup k' d).isSome = true) :
    (List.lookup k' (dictInsert d k v)).isSome = true := by
  rw [lookup_dictInsert]
  by_cases hk : k' = k <;> simp [hk, h]

/-- Download loop on a directory already holding every target: no fetch
happens and the directory is returned unchanged, from any start index. -/
theorem downloadLoop_all_exist (net : String → String) (nmax : Option Nat)
    (uris : List (String × String)) :
    ∀ (i : Nat) (dir : List (String × String)),
    (∀ tu ∈ uris, (List.lookup (finalSegment tu.2) dir).isSome = true) →
    downloadLoop net nmax uris i dir = ([], dir) := by
  induction uris with
  | nil => intro i dir _; simp [downloadLoop]
  | cons tu rest ih =>
    intro i dir h
    obtain ⟨t, uri⟩ := tu
    have hex : (List.lookup (finalSegment uri) dir).isSome = true :=
      h (t, uri) (List.mem_cons_self _ _)
    have hrest : ∀ tu ∈ rest, (List.lookup (finalSegment tu.2) dir).isSome = true :=
      fun tu htu => h tu (List.mem_cons_of_mem _ htu)
    by_cases hb : nmaxExceeded nmax i = true
    · simp [downloadLoop, hb]
    · simp only [downloadLoop, hb, hex, if_true, Bool.false_eq_true, if_false]
      exact ih (i + 1) dir hrest

/-- A uri whose target file is already present is never fetched by the
download loop, from any start index. -/
theorem downloadLoop_not_downloaded (net : String → String) (nmax : Option Nat)
    (uris : List (String × String)) (u : String) :
    ∀ (i : Nat) (dir : List (String × String)),
    (List.lookup (finalSegment u) dir).isSome = true →
    u ∉ (downloadLoop net nmax uris i dir).1 := by
  induction uris with
  | nil => intro i dir _; simp [downloadLoop]
  | cons tu rest ih =>
    intro i dir h
    obtain ⟨t, uri⟩ := tu
    by_cases hb : nmaxExceeded nmax i = true
    · simp [downloadLoop, hb]
    · by_cases hex : (List.lookup (finalSegment uri) dir).isSome = true
      · simp only [downloadLoop, hb, hex, if_true, Bool.false_eq_true, if_false]
        exact ih (i + 1) dir h
      · simp only [downloadLoop, hb, hex, if_true, Bool.false_eq_true, if_false]
        intro hmem
        rcases List.mem_cons.mp hmem with rfl | hmem'
        · exact hex h
        · exact ih (i + 1) (download_sheet net uri dir)
            (isSome_lookup_dictInsert dir (finalSegment uri) (net uri) (finalSegment u) h) hmem'

/-- The download loop never touches a file that was present at loop entry. -/
theorem downloadLoop_preserves (net : String → String) (nmax : Option Nat)
    (uris : List (String × String)) (k : String) :
    ∀ (i : Nat) (dir : List (String × String)),
    (List.lookup k dir).isSome = true →
    List.lookup k (downloadLoop net nmax uris i dir).2 = List.lookup k dir := by
  induction uris with
  | nil => intro i dir _; simp [downloadLoop]
  | cons tu rest ih =>
    intro i dir h
    obtain ⟨t, uri⟩ := tu
    by_cases hb : nmaxExceeded nmax i = true
    · simp [downloadLoop, hb]
    · by_cases hex : (List.lookup (finalSegment uri) dir).isSome = true
      · simp only [downloadLoop, hb, hex, if_true, Bool.false_eq_true, if_false]
        exact ih (i + 1) dir h
      · simp only [downloadLoop, hb, hex, if_true, Bool.false_eq_true, if_false]
        have hne : ¬k = finalSegment uri := by
          intro he
          rw [he] at h
          exact hex h
        have hdir' : List.lookup k (download_sheet net uri dir) = List.lookup k dir := by
          show List.lookup k (dictInsert dir (finalSegment uri) (net uri)) = _
          rw [lookup_dictInsert, if_neg hne]
        rw [ih (i + 1) (download_sheet net uri dir) (by rw [hdir']; exact h), hdir']

/-- Fetch count bound of the download loop under a cap. -/
theorem downloadLoop_length_le (net : String → String) (n : Nat)
    (uris : List (String × String)) :
    ∀ (i : Nat) (dir : List (String × String)),
    (downloadLoop net (some n) uris i dir).1.length ≤ n + 1 - i := by
  induction uris with
  | nil => intro i dir; simp [downloadLoop]
  | cons tu rest ih =>
    intro i dir
    obtain ⟨t, uri⟩ := tu
    by_cases hni : n < i
    · have hb : nmaxExceeded (some n) i = true := by simp [nmaxExceeded, hni]
      simp [downloadLoop, hb]
    · have hb : ¬nmaxExceeded (some n) i = true := by simp [nmaxExceeded, hni]
      have hi : i ≤ n := by omega
      by_cases hex : (List.lookup (finalSegment uri) dir).isSome = true
      · simp only [downloadLoop, hb, hex, if_true, Bool.false_eq_true, if_false]
        exact le_trans (ih (i + 1) dir) (by omega)
      · simp only [downloadLoop, hb, hex, if_true, Bool.false_eq_true, if_false,
          List.length_cons]
        have := ih (i + 1) (download_sheet net uri dir)
        omega

/-- Characterization of file_title_maps: looking up a filename yields the
title of the last input pair whose uri ends in that filename. -/
theorem lookup_make_file_title_maps (uris : List (String × String)) (k : String) :
    List.lookup k (make_file_title_maps uris) =
      ((uris.filter (fun tu => finalSegment tu.2 == k)).getLast?).map (·.1) := by
  induction uris using List.reverseRecOn with
  | nil => rfl
  | append_singleton l x ih =>
    unfold make_file_title_maps at ih ⊢
    rw [List.foldl_append, List.foldl_cons, List.foldl_nil, lookup_dictInsert,
      List.filter_append]
    by_cases hx : (finalSegment x.2 == k) = true
    · have hk : k = finalSegment x.2 := (beq_iff_eq.mp hx).symm
      rw [if_pos hk]
      simp only [List.filter_cons, hx, if_true, List.filter_nil, List.getLast?_concat]
      rfl
    · have hk : ¬k = finalSegment x.2 := fun he => hx (by simp [he])
      rw [if_neg hk]
      simp only [List.filter_cons, hx, Bool.false_eq_true, if_false, List.filter_nil,
        List.append_nil]
      exact ih

/-- C3: download_multiple_sheets skips every uri whose target file already
exists in the directory, and when every target file exists a run performs
zero downloads and leaves the directory unchanged. -/
theorem download_multiple_sheets_skips_existing (net : String → String)
    (uris : List (String × String)) (dir : List (String × String)) (nmax : Option Nat) :
    (∀ t u, (t, u) ∈ uris → (List.lookup (finalSegment u) dir).isSome = true →
      u ∉ (download_multiple_sheets net uris dir nmax).2.1) ∧
    ((∀ tu ∈ uris, (List.lookup (finalSegment tu.2) dir).isSome = true) →
      (download_multiple_sheets net uris dir nmax).2.1 = [] ∧
      (download_multiple_sheets net uris dir nmax).2.2 = dir) := by
  constructor
  · intro t u _ hs
    exact downloadLoop_not_downloaded net nmax uris u 0 dir hs
  · intro h
    unfold download_multiple_sheets
    rw [downloadLoop_all_exist net nmax uris 0 dir h]
    exact ⟨rfl, rfl⟩

/-- C3 witness: with the single target file already present, nothing is
fetched and the directory is unchanged. -/
theorem download_multiple_sheets_skips_existing_witness :
    ("https://host/f.xlsx" ∉ (download_multiple_sheets (fun _ => "data")
      [("t", "https://host/f.xlsx")] [("f.xlsx", "old")] none).2.1) ∧
    (download_multiple_sheets (fun _ => "data") [("t", "https://host/f.xlsx")]
      [("f.xlsx", "old")] none).2.1 = [] ∧
    (download_multiple_sheets (fun _ => "data") [("t", "https://host/f.xlsx")]
      [("f.xlsx", "old")] none).2.2 = [("f.xlsx", "old")] :=
  ⟨(download_multiple_sheets_skips_existing (fun _ => "data")
      [("t", "https://host/f.xlsx")] [("f.xlsx", "old")] none).1
      "t" "https://host/f.xlsx" (by decide) (by decide),
   (download_multiple_sheets_skips_existing (fun _ => "data")
      [("t", "https://host/f.xlsx")] [("f.xlsx", "old")] none).2
      (by decide)⟩

/-- C7 counterexample: the break condition lets index nmax itself through,
so with cap zero and one absent target the run performs one download, which
exceeds the cap. -/
theorem download_cap_exceeded_at_zero :
    ¬((download_multiple_sheets (fun _ => "data") [("t", "https://host/f.xlsx")]
      [] (some 0)).2.1.length ≤ 0) := by decide

/-- C7 amended: a run of download_multiple_sheets with cap nmax performs at
most nmax plus one downloads, because the loop breaks only once the running
index strictly exceeds nmax. -/
theorem download_count_le_nmax_succ (net : String → String)
    (uris : List (String × String)) (dir : List (String × String)) (n : Nat) :
    (download_multiple_sheets net uris dir (some n)).2.1.length ≤ n + 1 := by
  have h := downloadLoop_length_le net n uris 0 dir
  simpa using h

/-- C8 counterexample: download_sheet invoked on a uri whose target file
already exists overwrites that file with the newly fetched content. -/
theorem download_sheet_overwrites_existing :
    List.lookup "f.xlsx" (download_sheet (fun _ => "new") "https://host/f.xlsx"
      [("f.xlsx", "old")]) = some "new" ∧ ("new" : String) ≠ "old" := by decide

/-- C8 amended: the batch operation download_multiple_sheets never
overwrites: every file present in the directory before the run has unchanged
contents afterwards; only the low level helper download_sheet, invoked
directly on a uri whose target exists, overwrites it, and no force flag
exists in the code. -/
theorem download_multiple_sheets_preserves_existing (net : String → String)
    (uris : List (String × String)) (dir : List (String × String))
    (nmax : Option Nat) (k : String)
    (h : (List.lookup k dir).isSome = true) :
    List.lookup k (download_multiple_sheets net uris dir nmax).2.2 =
      List.lookup k dir :=
  downloadLoop_preserves net nmax uris k 0 dir h

/-- C8 witness: a run that downloads one new file leaves the content of the
already present file unchanged. -/
theorem download_multiple_sheets_preserves_existing_witness :
    List.lookup "f.xlsx" (download_multiple_sheets (fun _ => "new")
      [("t", "https://host/f.xlsx"), ("t2", "https://host/g.xlsx")]
      [("f.xlsx", "old")] none).2.2 = List.lookup "f.xlsx" [("f.xlsx", "old")] :=
  download_multiple_sheets_preserves_existing (fun _ => "new")
    [("t", "https://host/f.xlsx"), ("t2", "https://host/g.xlsx")]
    [("f.xlsx", "old")] none "f.xlsx" (by decide)

/-- C10 counterexample: two input pairs whose uris share the final path
segment collapse to a single entry keyed by that segment with the later
title, so the earlier pair has no entry carrying its title. -/
theorem file_title_maps_collision :
    (download_multiple_sheets (fun _ => "data")
      [("t1", "https://a/f.xlsx"), ("t2", "https://b/f.xlsx")] [] none).1 =
      [("f.xlsx", "t2")] ∧
    ("t1", "https://a/f.xlsx") ∈
      [("t1", "https://a/f.xlsx"), ("t2", "https://b/f.xlsx")] ∧
    ("f.xlsx", "t1") ∉ (download_multiple_sheets (fun _ => "data")
      [("t1", "https://a/f.xlsx"), ("t2", "https://b/f.xlsx")] [] none).1 := by decide

/-- C10 amended: the returned filename to title map is make_file_title_maps
of the input alone, independent of the cap, the directory and the network;
every input pair contributes the final segment of its uri as a key, and the
value under a key is the title of the last input pair whose uri ends in it. -/
theorem download_multiple_sheets_title_map (net : String → String)
    (uris : List (String × String)) (dir : List (String × String)) (nmax : Option Nat) :
    (download_multiple_sheets net uris dir nmax).1 = make_file_title_maps uris ∧
    (∀ k, List.lookup k (make_file_title_maps uris) =
      ((uris.filter (fun tu => finalSegment tu.2 == k)).getLast?).map (·.1)) ∧
    (∀ t u, (t, u) ∈ uris →
      (List.lookup (finalSegment u)
        (download_multiple_sheets net uris dir nmax).1).isSome = true) := by
  refine ⟨rfl, fun k => lookup_make_file_title_maps uris k, ?_⟩
  intro t u hm
  show (List.lookup (finalSegment u) (make_file_title_maps uris)).isSome = true
  rw [lookup_make_file_title_maps]
  have hmem : (t, u) ∈ uris.filter (fun tu => finalSegment tu.2 == finalSegment u) := by
    simp [List.mem_filter, hm]
  have hne : uris.filter (fun tu => finalSegment tu.2 == finalSegment u) ≠ [] :=
    List.ne_nil_of_mem hmem
  simp only [Option.isSome_map', List.getLast?_isSome]
  exact hne

/-- C10 witness: the map entry of a pair is present even when its target
file already exists and the cap is zero. -/
theorem download_multiple_sheets_title_map_witness :
    (List.lookup (finalSegment "https://a/f.xlsx")
      (download_multiple_sheets (fun _ => "data") [("t1", "https://a/f.xlsx")]
        [("f.xlsx", "old")] (some 0)).1).isSome = true :=
  (download_multiple_sheets_title_map (fun _ => "data") [("t1", "https://a/f.xlsx")]
    [("f.xlsx", "old")] (some 0)).2.2 "t1" "https://a/f.xlsx" (by decide)

/-- Five natural numbers summing to one: exactly one of them is one and the
others are zero. -/
theorem flagSum_cases (a b c d e : Nat) (h : a + b + c + d + e = 1) :
    (a = 1 ∧ b = 0 ∧ c = 0 ∧ d = 0 ∧ e = 0) ∨
    (a = 0 ∧ b = 1 ∧ c = 0 ∧ d = 0 ∧ e = 0) ∨
    (a = 0 ∧ b = 0 ∧ c = 1 ∧ d = 0 ∧ e = 0) ∨
    (a = 0 ∧ b = 0 ∧ c = 0 ∧ d = 1 ∧ e = 0) ∨
    (a = 0 ∧ b = 0 ∧ c = 0 ∧ d = 0 ∧ e = 1) := by omega

/-- A row with outcome flag sum one melts to exactly its one stacked entry. -/
theorem meltRow_eq_of_flagSum_one (r : WideRow) (h : wideFlagSum r = 1) :
    meltRow r = [mkMelt r] := by
  have hsum : r.ja + r.nein + r.Enthaltung + r.«ungültig» + r.nichtabgegeben = 1 := by
    simp [wideFlagSum, wideFlagPairs] at h
    omega
  rcases flagSum_cases _ _ _ _ _ hsum with
    ⟨e1, e2, e3, e4, e5⟩ | ⟨e1, e2, e3, e4, e5⟩ | ⟨e1, e2, e3, e4, e5⟩ |
    ⟨e1, e2, e3, e4, e5⟩ | ⟨e1, e2, e3, e4, e5⟩ <;>
  simp [meltRow, wideFlagPairs, mkMelt, voteChar, List.find?, e1, e2, e3, e4, e5]

/-- Reconstructing the one hot columns from the vote of a squished row with
flag sum one restores the wide row. -/
theorem unsquishRow_dropVoteCols (r : WideRow) (h : wideFlagSum r = 1) :
    unsquishRow (dropVoteCols r (mkIssue r.date r.title) (some (voteChar r))) = r := by
  obtain ⟨w, sn, ab, fr, na, vn, ti, ja, ne, en, ug, nb, bz, shn, dt, tl⟩ := r
  have hsum : ja + ne + en + ug + nb = 1 := by
    simp [wideFlagSum, wideFlagPairs] at h
    omega
  rcases flagSum_cases _ _ _ _ _ hsum with
    ⟨e1, e2, e3, e4, e5⟩ | ⟨e1, e2, e3, e4, e5⟩ | ⟨e1, e2, e3, e4, e5⟩ |
    ⟨e1, e2, e3, e4, e5⟩ | ⟨e1, e2, e3, e4, e5⟩ <;>
  simp [unsquishRow, dropVoteCols, voteChar, wideFlagPairs, List.find?,
    e1, e2, e3, e4, e5]

/-- Flat map collapses to a map when every element yields a singleton. -/
theorem flatMap_eq_map_of_forall {α β : Type} (l : List α) (f : α → List β) (g : α → β)
    (h : ∀ a ∈ l, f a = [g a]) : l.flatMap f = l.map g := by
  induction l with
  | nil => rfl
  | cons a t ih =>
    rw [List.flatMap_cons, h a (List.mem_cons_self a t), List.map_cons,
      ih (fun x hx => h x (List.mem_cons_of_mem a hx))]
    rfl

/-- With pairwise distinct keys, filtering a list for the key of one of its
members returns exactly that member. -/
theorem filter_key_nodup {α κ : Type} [DecidableEq κ] (key : α → κ) :
    ∀ (l : List α), (l.map key).Nodup → ∀ r ∈ l,
    l.filter (fun x => decide (key x = key r)) = [r] := by
  intro l
  induction l with
  | nil => intro _ r hr; simp at hr
  | cons a t ih =>
    intro hn r hr
    rw [List.map_cons, List.nodup_cons] at hn
    obtain ⟨hna, hnt⟩ := hn
    rcases List.mem_cons.mp hr with rfl | hrt
    · rw [List.filter_cons, if_pos (by simp)]
      have htail : t.filter (fun x => decide (key x = key r)) = [] := by
        rw [List.filter_eq_nil_iff]
        intro x hx
        simp only [decide_eq_true_eq]
        intro hkey
        exact hna (hkey ▸ List.mem_map_of_mem key hx)
      rw [htail]
    · have hk : ¬key a = key r := by
        intro he
        exact hna (he ▸ List.mem_map_of_mem key hrt)
      rw [List.filter_cons, if_neg (by simpa using hk)]
      exact ih hnt r hrt

/-- Join predicate of get_squished_dataframe evaluated on a stacked entry:
it compares exactly the wide keys. -/
theorem join_pred_mkMelt (r x : WideRow) :
    (decide ((mkMelt x).Bezeichnung = r.Bezeichnung ∧ (mkMelt x).date = r.date ∧
      (mkMelt x).title = r.title)) = decide (wideKey x = wideKey r) := by
  rw [decide_eq_decide]
  simp [mkMelt, wideKey, Prod.ext_iff]

/-- C2 counterexample: a two row table whose rows share the Bezeichnung,
date and title join key has every row with exactly one outcome flag set and
a date, yet get_squished_dataframe returns four rows instead of two, so the
melted table does not keep the row count and the round trip fails. -/
theorem get_squished_dataframe_duplicate_key_failure :
    (dupKeyTable.all (fun r => wideFlagSum r == 1 && r.date.isSome)) = true ∧
    dupKeyTable.length = 2 ∧
    (get_squished_dataframe dupKeyTable).length = 4 := by decide

/-- C2 amended: on a wide table whose rows have exactly one outcome flag set
(flag sum one), a date, and pairwise distinct Bezeichnung, date, title join
keys, melting with get_squished_dataframe keeps the row count and
reconstructing the one hot columns from the vote column restores the
original table row for row. -/
theorem get_squished_dataframe_round_trip (df : List WideRow)
    (hflags : ∀ r ∈ df, wideFlagSum r = 1)
    (hdate : ∀ r ∈ df, r.date.isSome = true)
    (hkeys : (df.map wideKey).Nodup) :
    unsquish (get_squished_dataframe df) = df ∧
    (get_squished_dataframe df).length = df.length := by
  have hmelt : ∀ r ∈ df, meltRow r = [mkMelt r] :=
    fun r hr => meltRow_eq_of_flagSum_one r (hflags r hr)
  have hstack : stackFilter df = df.map mkMelt :=
    flatMap_eq_map_of_forall df meltRow mkMelt hmelt
  have hsquish : get_squished_dataframe df =
      df.map (fun r => dropVoteCols r (mkIssue r.date r.title) (some (voteChar r))) := by
    unfold get_squished_dataframe
    rw [hstack]
    apply flatMap_eq_map_of_forall
    intro r hr
    have hcomp : ((fun m => decide (m.Bezeichnung = r.Bezeichnung ∧ m.date = r.date ∧
        m.title = r.title)) ∘ mkMelt) = fun x => decide (wideKey x = wideKey r) := by
      funext x
      exact join_pred_mkMelt r x
    have hfil : (df.map mkMelt).filter (fun m =>
        decide (m.Bezeichnung = r.Bezeichnung ∧ m.date = r.date ∧ m.title = r.title)) =
        [mkMelt r] := by
      rw [List.filter_map, hcomp, filter_key_nodup wideKey df hkeys r hr]
      rfl
    rw [hfil]
    simp [mkMelt]
  constructor
  · rw [hsquish]
    unfold unsquish
    rw [List.map_map]
    have hid : ∀ r ∈ df, (unsquishRow ∘ fun r =>
        dropVoteCols r (mkIssue r.date r.title) (some (voteChar r))) r = r := by
      intro r hr
      simp only [Function.comp]
      exact unsquishRow_dropVoteCols r (hflags r hr)
    calc df.map (unsquishRow ∘ fun r =>
          dropVoteCols r (mkIssue r.date r.title) (some (voteChar r)))
        = df.map id := List.map_congr_left hid
      _ = df := List.map_id df
  · rw [hsquish, List.length_map]

/-- C2 witness: the round trip holds on the concrete two row table with
distinct join keys. -/
theorem get_squished_dataframe_round_trip_witness :
    unsquish (get_squished_dataframe okKeyTable) = okKeyTable ∧
    (get_squished_dataframe okKeyTable).length = okKeyTable.length :=
  get_squished_dataframe_round_trip okKeyTable (by decide) (by decide) (by decide)
